import Mathlib

/-!
Verification of the audit-log enrichment and anomaly-classification pipeline
of the microsoft-purview-security-analyzer repository.

The definitions below are a shallow embedding of the Python sources:
`security_analyzer.py` (geolocation, anomaly rules, risk scoring, filter
engine) and `processor.py` (the row-parsing loop that surfaces an error
count).  Pure Python functions become Lean functions; the two external
effects are made explicit: the GeoLite2 reader is a parameter
`Option (String → Option GeoResp)` plus a Bool recording whether it was
consulted, and `json.loads` is a parameter classifying each string blob.
Machine floats only occur as inert latitude/longitude data, embedded as `ℚ`.
-/

/-! ## Timestamps

`pd.to_datetime` on an event's `Timestamp` either yields a datetime or
raises; an `Event` stores `Option DT`, `none` standing for the raising case.
Only the fields the rules read are kept: hour, minute, second and
`weekday()` (0 = Monday .. 6 = Sunday). -/

structure DT where
  hour : Nat
  minute : Nat
  second : Nat
  weekday : Nat
deriving DecidableEq

/-- A clock time, as `datetime.time` is used by the custom-range filter. -/
structure Tod where
  hour : Nat
  minute : Nat
  second : Nat
deriving DecidableEq

/-- Lexicographic comparison of clock times (`datetime.time` ordering). -/
def todLe (a b : Tod) : Bool :=
  decide (a.hour < b.hour ∨ (a.hour = b.hour ∧
    (a.minute < b.minute ∨ (a.minute = b.minute ∧ a.second ≤ b.second))))

/-- `timestamp.time()`. -/
def dtTod (dt : DT) : Tod := ⟨dt.hour, dt.minute, dt.second⟩

/-! ## Character-list helpers

`str.split(sep)` / substring tests, written over `List Char` by structural
recursion so that concrete witnesses evaluate by kernel reduction. -/

/-- Python `s.split(c)`: splits at every occurrence, keeping empty pieces. -/
def splitOnChar (c : Char) : List Char → List (List Char)
  | [] => [[]]
  | x :: xs =>
    let r := splitOnChar c xs
    if x = c then [] :: r
    else
      match r with
      | h :: t => (x :: h) :: t
      | [] => [[x]]

/-- Python `s.partition(c)`: the part before the first occurrence of `c`,
and the rest after it when `c` occurs. -/
def splitFirst (c : Char) : List Char → List Char × Option (List Char)
  | [] => ([], none)
  | x :: xs =>
    if x = c then ([], some xs)
    else
      let (a, b) := splitFirst c xs
      (x :: a, b)

/-- Does the needle begin the haystack? -/
def listStarts : List Char → List Char → Bool
  | [], _ => true
  | _ :: _, [] => false
  | a :: as, b :: bs => a = b && listStarts as bs

/-- Does the needle occur contiguously in the haystack (Python `in` on str)? -/
def listInside (n : List Char) : List Char → Bool
  | [] => listStarts n []
  | l@(_ :: bs) => listStarts n l || listInside n bs

/-- Python `needle in s` for strings. -/
def strContains (s needle : String) : Bool := listInside needle.data s.data

/-! ## `ipaddress.ip_address` and `is_private`

`security_analyzer.is_private_ip` calls the Python stdlib; the stdlib's
textual address grammar (CPython `ipaddress._ip_int_from_string` for IPv4
and IPv6, including the `%scope` and `/` rules) and its
`is_private` network tables are embedded below. -/

/-- A parsed address: an IPv4 value below 2^32 or an IPv6 value below 2^128. -/
inductive IPAddr where
  | v4 (n : Nat)
  | v6 (n : Nat)
deriving DecidableEq

/-- CPython `_parse_octet`: decimal digits only, at most 3 of them, no
leading zero, value at most 255. -/
def parseOctet (l : List Char) : Option Nat :=
  if l = [] then none
  else if ¬ l.all (fun c => c.isDigit) then none
  else if l.length > 3 then none
  else if l.length > 1 ∧ l.head? = some '0' then none
  else
    let v := l.foldl (fun a c => a * 10 + (c.toNat - 48)) 0
    if v > 255 then none else some v

/-- CPython IPv4 parsing: exactly four octets separated by dots. -/
def parseIPv4core (s : List Char) : Option Nat :=
  match (splitOnChar '.' s).mapM parseOctet with
  | some [a, b, c, d] => some (((a * 256 + b) * 256 + c) * 256 + d)
  | _ => none

/-- `IPv4Address(s)` (the string form; `/` never parses as a digit). -/
def parseIPv4 (s : String) : Option Nat := parseIPv4core s.data

/-- Hexadecimal digit test, ASCII only, as CPython's `_HEX_DIGITS`. -/
def hexDigit (c : Char) : Bool :=
  c.isDigit || ('a' ≤ c && c ≤ 'f') || ('A' ≤ c && c ≤ 'F')

/-- Numeric value of a hexadecimal digit. -/
def hexVal (c : Char) : Nat :=
  if c.isDigit then c.toNat - 48
  else if 'a' ≤ c then c.toNat - 87
  else c.toNat - 55

/-- CPython `_parse_hextet`: hex digits only, nonempty, at most 4 of them. -/
def parseHextet (l : List Char) : Option Nat :=
  if l = [] then none
  else if ¬ l.all hexDigit then none
  else if l.length > 4 then none
  else some (l.foldl (fun a c => a * 16 + hexVal c) 0)

/-- One colon-separated piece of an IPv6 literal: raw text, or the numeric
hextets produced by expanding an embedded dotted-quad tail. -/
inductive V6Part where
  | raw (l : List Char)
  | num (n : Nat)
deriving DecidableEq

/-- Is the piece the empty string (a candidate for the one `::`)? -/
def v6partEmpty : V6Part → Bool
  | .raw [] => true
  | _ => false

/-- Value of a piece as a hextet. -/
def v6partVal : V6Part → Option Nat
  | .raw l => parseHextet l
  | .num n => some n

/-- Assemble the address from the pieces before the `::`, the pieces after
it, and the number of zero hextets the `::` stands for. -/
def assembleV6 (hiParts loParts : List V6Part) (skipped : Nat) : Option Nat :=
  match hiParts.mapM v6partVal, loParts.mapM v6partVal with
  | some hs, some ls =>
    some ((hs.foldl (fun a h => a * 65536 + h) 0) * 65536 ^ (skipped + ls.length)
      + ls.foldl (fun a h => a * 65536 + h) 0)
  | _, _ => none

/-- CPython `IPv6Address._ip_int_from_string`: at least 3 colon-pieces, an
optional dotted-quad tail expanded to two hextets, at most 9 pieces, at most
one empty interior piece (the `::`), an empty edge piece only as part of a
`::` at that edge, and at least one zero hextet skipped by a `::`. -/
def parseIPv6core (s : List Char) : Option Nat :=
  let rawParts := splitOnChar ':' s
  if rawParts.length < 3 then none
  else
    let expanded : Option (List V6Part) :=
      match rawParts.getLast? with
      | none => none
      | some last =>
        if last.contains '.' then
          match parseIPv4core last with
          | some v4 =>
            some (rawParts.dropLast.map V6Part.raw
              ++ [V6Part.num (v4 / 65536), V6Part.num (v4 % 65536)])
          | none => none
        else some (rawParts.map V6Part.raw)
    match expanded with
    | none => none
    | some parts =>
      if parts.length > 9 then none
      else
        let interior := (List.range parts.length).filter
          (fun i => decide (0 < i) && decide (i + 1 < parts.length)
            && v6partEmpty (parts.getD i (V6Part.raw [])))
        match interior with
        | [] =>
          if parts.length = 8 then
            match parts.head?, parts.getLast? with
            | some h, some t =>
              if v6partEmpty h || v6partEmpty t then none
              else assembleV6 parts [] 0
            | _, _ => none
          else none
        | [k] =>
          let hiRes : Option Nat :=
            match parts.head? with
            | some h =>
              if v6partEmpty h then (if k = 1 then some 0 else none) else some k
            | none => none
          let loRes : Option Nat :=
            match parts.getLast? with
            | some t =>
              if v6partEmpty t then (if k + 2 = parts.length then some 0 else none)
              else some (parts.length - k - 1)
            | none => none
          match hiRes, loRes with
          | some hi, some lo =>
            if hi + lo ≤ 7 then
              assembleV6 (parts.take hi) (parts.drop (parts.length - lo)) (8 - hi - lo)
            else none
          | _, _ => none
        | _ => none

/-- `IPv6Address(s)`: no `/` anywhere, an optional nonempty `%scope` free of
further `%`, then the hextet grammar. -/
def parseIPv6 (s : String) : Option Nat :=
  let l := s.data
  if l.contains '/' then none
  else
    match splitFirst '%' l with
    | (addr, none) => parseIPv6core addr
    | (addr, some scope) =>
      if scope = [] ∨ scope.contains '%' then none else parseIPv6core addr

/-- `ipaddress.ip_address(s)`: IPv4 first, then IPv6; `none` is the raised
`ValueError`. -/
def pythonParseIP (s : String) : Option IPAddr :=
  match parseIPv4 s with
  | some n => some (.v4 n)
  | none => (parseIPv6 s).map .v6

/-- CPython `is_private`: membership in the iana special registries
(`0.0.0.0/8`, `10.0.0.0/8`, `127.0.0.0/8`, `169.254.0.0/16`,
`172.16.0.0/12`, `192.0.0.0/29`, `192.0.0.170/31`, `192.0.2.0/24`,
`192.168.0.0/16`, `198.18.0.0/15`, `198.51.100.0/24`, `203.0.113.0/24`,
`240.0.0.0/4`, `255.255.255.255/32` for IPv4; `::1/128`, `::/128`,
`::ffff:0:0/96`, `100::/64`, `2001::/23`, `2001:db8::/32`, `fc00::/7`,
`fe80::/10` for IPv6), each network written as a quotient test. -/
def pyIsPrivate : IPAddr → Bool
  | .v4 n => decide (n / 16777216 = 0 ∨ n / 16777216 = 10 ∨ n / 16777216 = 127
      ∨ n / 65536 = 43518 ∨ n / 1048576 = 2753 ∨ n / 8 = 402653184
      ∨ n / 2 = 1610612821 ∨ n / 256 = 12582914 ∨ n / 65536 = 49320
      ∨ n / 131072 = 25353 ∨ n / 256 = 12989284 ∨ n / 256 = 13303921
      ∨ n / 268435456 = 15 ∨ n = 4294967295)
  | .v6 n => decide (n = 1 ∨ n = 0 ∨ n / 4294967296 = 65535
      ∨ n / 18446744073709551616 = 72057594037927936 ∨ n / 2 ^ 105 = 1048704
      ∨ n / 2 ^ 96 = 536939960 ∨ n / 2 ^ 121 = 126 ∨ n / 2 ^ 118 = 1018)

/-! ## `security_analyzer.py`: geolocation resolver -/

/-- The five-field geolocation record the pipeline attaches to events. -/
structure GeoRecord where
  Country : String
  Region : String
  City : String
  Latitude : ℚ
  Longitude : ℚ
deriving DecidableEq

/-- A successful `geo_reader.city(ip)` response; `none` sub-fields are the
falsy `iso_code` / `name` / coordinate values. -/
structure GeoResp where
  country : Option String
  region : Option String
  city : Option String
  lat : Option ℚ
  lon : Option ℚ

/-- The static record for the analyst's usual IP. -/
def fransRecord : GeoRecord :=
  { Country := "US", Region := "Massachusetts", City := "Boston",
    Latitude := 42.3601, Longitude := -71.0589 }

/-- The sentinel for private addresses. -/
def localRecord : GeoRecord :=
  { Country := "Local", Region := "Network", City := "Private",
    Latitude := 0, Longitude := 0 }

/-- The sentinel when every lookup tier fails. -/
def unknownRecord : GeoRecord :=
  { Country := "Unknown", Region := "Unknown", City := "Unknown",
    Latitude := 0, Longitude := 0 }

/-- `KNOWN_IPS`: the hard-coded table of pre-resolved addresses. -/
def KNOWN_IPS : List (String × GeoRecord) := [("192.168.1.160", fransRecord)]

/-- `is_private_ip`: `'N/A'` and unparseable strings count as private. -/
def is_private_ip (ip : String) : Bool :=
  if ip = "N/A" then true
  else
    match pythonParseIP ip with
    | none => true
    | some a => pyIsPrivate a

/-- `response` fields with their `Unknown` / `0` defaults applied. -/
def respToRecord (r : GeoResp) : GeoRecord :=
  { Country := r.country.getD "Unknown", Region := r.region.getD "Unknown",
    City := r.city.getD "Unknown", Latitude := r.lat.getD 0,
    Longitude := r.lon.getD 0 }

/-- `get_ip_geolocation`, with the external reader as a parameter
(`reader ip = none` is the raising lookup).  The second component records
whether `geo_reader.city` was consulted. -/
def get_ip_geolocation (ip : String)
    (geoReader : Option (String → Option GeoResp)) : GeoRecord × Bool :=
  match List.lookup ip KNOWN_IPS with
  | some r => (r, false)
  | none =>
    if is_private_ip ip then (localRecord, false)
    else
      match geoReader with
      | some reader =>
        if ip ≠ "N/A" then
          match reader ip with
          | some resp => (respToRecord resp, true)
          | none => (unknownRecord, true)
        else (unknownRecord, false)
      | none => (unknownRecord, false)

/-! ## `security_analyzer.py`: events and the rule engine

An event is the dict built by `parse_audit_logs` and later annotated by
`apply_filters`; the two annotation keys are `Option`s, `none` while the
key is absent. -/

structure Event where
  Timestamp : Option DT := none
  Operation : String := ""
  UserId : String := ""
  ClientIP : String := "N/A"
  ResultStatus : String := "N/A"
  FileName : String := ""
  Country : String := "Unknown"
  Region : String := "Unknown"
  City : String := "Unknown"
  Latitude : ℚ := 0
  Longitude : ℚ := 0
  RiskLevel : Option String := none
  AnomalyTypes : Option (List String) := none
deriving DecidableEq

/-- `is_ip_anomalous`: never for the reference IP; otherwise whenever the
geolocated country is not `US` or the region is not `Massachusetts`. -/
def is_ip_anomalous (e : Event) : Bool :=
  if e.ClientIP = "192.168.1.160" then false
  else if e.Country ≠ "US" ∨ e.Region ≠ "Massachusetts" then true
  else false

/-- The set of distinct client IPs a user appears with over the whole
timeline (`user_ip_map[user_id]`; only its size is ever used). -/
def userIPs (timeline : List Event) (uid : String) : List String :=
  ((timeline.filter (fun e => e.UserId = uid)).map (fun e => e.ClientIP)).dedup

/-- The suspicious-activity test of `detect_compromised_events`. -/
def suspiciousActivity (timeline : List Event) (e : Event) : Bool :=
  decide (e.Operation ∈ ["SoftDelete", "MoveToDeletedItems"])
    || decide ((userIPs timeline e.UserId).length > 3)

/-- `detect_compromised_events`. -/
def detect_compromised_events (timeline : List Event) : List Event :=
  timeline.filter (fun e => suspiciousActivity timeline e && is_ip_anomalous e)

/-- `assign_risk_level`: additive score over geography, operation and time,
then thresholded at 5 and 2. -/
def assign_risk_level (e : Event) : String :=
  let geoScore : Nat :=
    if e.Country ∈ ["Unknown", "CN", "RU", "KP", "IR"] then 3
    else if e.Country ∉ ["US", "CA", "GB", "DE", "FR", "AU", "JP"] then 2
    else if e.Country = "Local" then 0
    else 0
  let opScore : Nat :=
    if e.Operation ∈ ["SoftDelete", "MoveToDeletedItems", "UserLoginFailed",
        "PasswordReset"] then 3
    else if e.Operation ∈ ["FileAccessed", "FileModified", "UserLogin"] then 1
    else 0
  let timeScore : Nat :=
    match e.Timestamp with
    | none => 0
    | some dt =>
      (if dt.hour < 8 ∨ dt.hour > 18 then 1 else 0)
        + (if dt.weekday ≥ 5 then 1 else 0)
  let riskScore := geoScore + opScore + timeScore
  if riskScore ≥ 5 then "High"
  else if riskScore ≥ 2 then "Medium"
  else "Low"

/-- The risk scoring as the spec words it, for comparison with
`assign_risk_level`: geography is +3 for the high-risk set, +0 for
`Local`, +2 for any other country outside the low-risk set; operation and
time scores and the thresholds are those of the code. -/
def risk_level_spec (e : Event) : String :=
  let geoScore : Nat :=
    if e.Country ∈ ["Unknown", "CN", "RU", "KP", "IR"] then 3
    else if e.Country = "Local" then 0
    else if e.Country ∉ ["US", "CA", "GB", "DE", "FR", "AU", "JP"] then 2
    else 0
  let opScore : Nat :=
    if e.Operation ∈ ["SoftDelete", "MoveToDeletedItems", "UserLoginFailed",
        "PasswordReset"] then 3
    else if e.Operation ∈ ["FileAccessed", "FileModified", "UserLogin"] then 1
    else 0
  let timeScore : Nat :=
    match e.Timestamp with
    | none => 0
    | some dt =>
      (if dt.hour < 8 ∨ dt.hour > 18 then 1 else 0)
        + (if dt.weekday ≥ 5 then 1 else 0)
  let riskScore := geoScore + opScore + timeScore
  if riskScore ≥ 5 then "High"
  else if riskScore ≥ 2 then "Medium"
  else "Low"

/-- `classify_anomaly_type`: the multi-label classifier; labels are
appended in the source's order and `General Anomaly` stands for none. -/
def classify_anomaly_type (e : Event) : List String :=
  let geo : List String :=
    if e.Country ∉ ["US", "Local"] ∧ is_ip_anomalous e = true then
      ["Geographic Anomaly"]
    else []
  let time : List String :=
    match e.Timestamp with
    | none => []
    | some dt =>
      if dt.hour < 6 ∨ dt.hour > 22 then ["Time Anomaly"]
      else if dt.weekday ≥ 5 then ["Time Anomaly"]
      else []
  let access : List String :=
    if e.Operation ∈ ["SoftDelete", "MoveToDeletedItems", "PasswordReset"] then
      ["Access Pattern Anomaly"]
    else []
  let failedAuth : List String :=
    if strContains e.Operation "Failed" ∨ strContains e.Operation "Denied" then
      ["Failed Authentication"]
    else []
  let privEsc : List String :=
    if strContains e.Operation "Admin" ∨ strContains e.Operation "Elevate"
        ∨ strContains e.Operation "Grant" then
      ["Privilege Escalation"]
    else []
  let all := geo ++ time ++ access ++ failedAuth ++ privEsc
  if all = [] then ["General Anomaly"] else all

/-! ## `security_analyzer.py`: filter engine -/

/-- The filter configuration dict; an empty list or `none` is the falsy
`filter_config.get(...)` of an absent or empty option. -/
structure FilterConfig where
  risk_levels : List String := []
  anomaly_types : List String := []
  excluded_countries : List String := []
  time_filter_type : Option String := none
  start_time : Option Tod := none
  end_time : Option Tod := none
  ip_filter_options : List String := []

/-- The per-event annotation step at the top of `apply_filters`. -/
def annotate (e : Event) : Event :=
  let e1 := { e with RiskLevel := some (assign_risk_level e) }
  { e1 with AnomalyTypes := some (classify_anomaly_type e1) }

/-- The body of the `apply_time_filter` loop for one event: unparseable
timestamps fall into the `except` branch and are kept. -/
def timeKeep (cfg : FilterConfig) (tf : String) (e : Event) : Bool :=
  match e.Timestamp with
  | none => true
  | some dt =>
    if tf = "Business Hours Only" then
      decide (8 ≤ dt.hour ∧ dt.hour ≤ 17 ∧ dt.weekday < 5)
    else if tf = "Outside Business Hours" then
      decide (dt.hour < 8 ∨ 17 < dt.hour ∨ 5 ≤ dt.weekday)
    else if tf = "Weekends Only" then
      decide (5 ≤ dt.weekday)
    else if tf = "Custom Range" then
      match cfg.start_time, cfg.end_time with
      | some st, some et => todLe st (dtTod dt) && todLe (dtTod dt) et
      | _, _ => false
    else true

/-- `apply_time_filter`. -/
def apply_time_filter (events : List Event) (cfg : FilterConfig) : List Event :=
  match cfg.time_filter_type with
  | none => events
  | some tf => events.filter (timeKeep cfg tf)

/-- `ip_counts[ip]`: occurrences of an IP over the list being filtered. -/
def countIP (events : List Event) (ip : String) : Nat :=
  (events.filter (fun e => e.ClientIP = ip)).length

/-- `ip_countries[ip]`: the distinct countries an IP appears with. -/
def ipCountries (events : List Event) (ip : String) : List String :=
  ((events.filter (fun e => e.ClientIP = ip)).map (fun e => e.Country)).dedup

/-- One pass of the option loop in `apply_ip_pattern_filter`. -/
def ipOptionHolds1 (events : List Event) (e : Event) (o : String) : Bool :=
  if o = "First-time IPs" then countIP events e.ClientIP == 1
  else if o = "Frequent IPs" then decide (countIP events e.ClientIP > 10)
  else if o = "Single-use IPs" then countIP events e.ClientIP == 1
  else if o = "Cross-country IPs" then
    decide ((ipCountries events e.ClientIP).length > 1)
  else false

/-- `include_event` after the option loop. -/
def ipOptionHolds (events : List Event) (opts : List String) (e : Event) : Bool :=
  opts.any (ipOptionHolds1 events e)

/-- `apply_ip_pattern_filter`: counts are taken over the incoming
(already filtered) list. -/
def apply_ip_pattern_filter (events : List Event) (cfg : FilterConfig) :
    List Event :=
  if cfg.ip_filter_options = [] then events
  else
    events.filter (fun e =>
      ipOptionHolds events cfg.ip_filter_options e
        || decide (cfg.ip_filter_options = []))

/-- The risk-level stage of `apply_filters`. -/
def riskStage (cfg : FilterConfig) (evs : List Event) : List Event :=
  if cfg.risk_levels ≠ [] then
    evs.filter (fun e =>
      match e.RiskLevel with
      | some r => decide (r ∈ cfg.risk_levels)
      | none => false)
  else evs

/-- The anomaly-type stage of `apply_filters`. -/
def anomalyStage (cfg : FilterConfig) (evs : List Event) : List Event :=
  if cfg.anomaly_types ≠ [] then
    evs.filter (fun e =>
      (e.AnomalyTypes.getD []).any (fun a => decide (a ∈ cfg.anomaly_types)))
  else evs

/-- The excluded-countries stage of `apply_filters`. -/
def countryStage (cfg : FilterConfig) (evs : List Event) : List Event :=
  if cfg.excluded_countries ≠ [] then
    evs.filter (fun e => decide (e.Country ∉ cfg.excluded_countries))
  else evs

/-- The time stage of `apply_filters`. -/
def timeStage (cfg : FilterConfig) (evs : List Event) : List Event :=
  if cfg.time_filter_type.isSome then apply_time_filter evs cfg else evs

/-- The IP-pattern stage of `apply_filters`, applied last. -/
def ipStage (cfg : FilterConfig) (evs : List Event) : List Event :=
  if cfg.ip_filter_options ≠ [] then apply_ip_pattern_filter evs cfg else evs

/-- `apply_filters`: annotate, then the five stages in the source's order. -/
def apply_filters (events : List Event) (cfg : FilterConfig) : List Event :=
  if events = [] then events
  else
    ipStage cfg (timeStage cfg (countryStage cfg (anomalyStage cfg
      (riskStage cfg (events.map annotate)))))

/-! ## `processor.py`: the row loop of `parse_audit_logs`

`json.loads` is a parameter: for each string blob it yields a JSON object
(an association list of string fields), some other JSON value (on which the
subsequent `.get` raises `AttributeError`), or raises `JSONDecodeError`.  A
blob that is not a string at all raises `TypeError` inside `json.loads`;
neither `TypeError` nor `AttributeError` is caught by the loop's
`except json.JSONDecodeError`, so they escape to the outer handler. -/

/-- A JSON decode error (the only exception the row loop catches). -/
inductive JErr where
  | decodeError
deriving DecidableEq

/-- What `json.loads` returns when it does not raise. -/
inductive JVal where
  | obj (d : List (String × String))
  | nonObj
deriving DecidableEq

/-- An `AuditData` cell: a string, or a value of some other type
(for instance the float `NaN` pandas reads from an empty cell). -/
inductive Blob where
  | str (s : String)
  | nonStr
deriving DecidableEq

/-- One row of the validated, date-converted frame. -/
structure PRow where
  CreationDate : DT
  Operation : String
  UserId : String
  AuditData : Blob
deriving DecidableEq

/-- The event dict `processor.parse_audit_logs` builds: coordinates are
stored as returned (possibly `None`), with no falsy defaulting. -/
structure PEvent where
  Timestamp : DT
  Operation : String
  UserId : String
  ClientIP : String
  ResultStatus : String
  FileName : String
  Country : String
  Region : String
  City : String
  Latitude : Option ℚ
  Longitude : Option ℚ
deriving DecidableEq

/-- `audit_data.get(key, default)` on the decoded object. -/
def dictGet (d : List (String × String)) (k dflt : String) : String :=
  (List.lookup k d).getD dflt

/-- The per-row event construction, geolocation included: the reader is
consulted unless the IP is `N/A`, after stripping a `:port` suffix from
unbracketed addresses; a raising lookup degrades to the Unknown record with
`None` coordinates. -/
def buildPEvent (rd : String → Option GeoResp) (row : PRow)
    (d : List (String × String)) : PEvent :=
  let clientIP := dictGet d "ClientIP" "N/A"
  let fileName :=
    if row.Operation = "FileAccessed" then dictGet d "SourceFileName" "N/A"
    else ""
  let geo : String × String × String × Option ℚ × Option ℚ :=
    if clientIP ≠ "N/A" then
      let lookupIP :=
        if clientIP.data.contains ':' && ¬ (clientIP.data.head? = some '[') then
          String.mk ((splitOnChar ':' clientIP.data).headD [])
        else clientIP
      match rd lookupIP with
      | some resp =>
        (resp.country.getD "Unknown", resp.region.getD "Unknown",
          resp.city.getD "Unknown", resp.lat, resp.lon)
      | none => ("Unknown", "Unknown", "Unknown", none, none)
    else ("Unknown", "Unknown", "Unknown", none, none)
  { Timestamp := row.CreationDate, Operation := row.Operation,
    UserId := row.UserId, ClientIP := clientIP,
    ResultStatus := dictGet d "ResultStatus" "N/A", FileName := fileName,
    Country := geo.1, Region := geo.2.1, City := geo.2.2.1,
    Latitude := geo.2.2.2.1, Longitude := geo.2.2.2.2 }

/-- The row loop: rows are processed in order; a `JSONDecodeError` skips the
row and bumps `error_count`; a `TypeError` or `AttributeError` escapes and
aborts the whole batch. -/
def processorLoop (jl : String → Except JErr JVal)
    (rd : String → Option GeoResp) : List PRow → Except String (List PEvent × Nat)
  | [] => .ok ([], 0)
  | row :: rest =>
    match row.AuditData with
    | .nonStr => .error "TypeError"
    | .str s =>
      match jl s with
      | .error _ =>
        match processorLoop jl rd rest with
        | .error m => .error m
        | .ok (tl, c) => .ok (tl, c + 1)
      | .ok .nonObj => .error "AttributeError"
      | .ok (.obj d) =>
        match processorLoop jl rd rest with
        | .error m => .error m
        | .ok (tl, c) => .ok (buildPEvent rd row d :: tl, c)

/-- What `processor.parse_audit_logs` hands back after the loop. -/
inductive PResult where
  | fatal (msg : String)
  | ok (timeline : List PEvent) (warning : Option Nat)
deriving DecidableEq

/-- `processor.parse_audit_logs` from the row loop on: an escaped exception
becomes the outer error return, an empty timeline is fatal, and the skipped
count is surfaced as a warning exactly when it is positive. -/
def processor_parse (jl : String → Except JErr JVal)
    (rd : String → Option GeoResp) (rows : List PRow) : PResult :=
  match processorLoop jl rd rows with
  | .error m => .fatal ("Error processing file: " ++ m)
  | .ok (tl, c) =>
    if tl = [] then .fatal "No valid data could be parsed from the file"
    else .ok tl (if c > 0 then some c else none)

/-- A row whose blob is a string decoding to a JSON object. -/
def rowGood (jl : String → Except JErr JVal) (r : PRow) : Bool :=
  match r.AuditData with
  | .str s =>
    match jl s with
    | .ok (.obj _) => true
    | _ => false
  | .nonStr => false

/-- A row whose blob is a string raising `JSONDecodeError`. -/
def rowBad (jl : String → Except JErr JVal) (r : PRow) : Bool :=
  match r.AuditData with
  | .str s =>
    match jl s with
    | .error _ => true
    | _ => false
  | .nonStr => false

/-! ## Concrete data for spot checks -/

/-- An event resolved to the Local sentinel (a private client IP). -/
def localEvent : Event :=
  { Timestamp := some ⟨10, 0, 0, 1⟩, Operation := "Search", UserId := "frans",
    ClientIP := "10.0.0.8", Country := "Local", Region := "Network",
    City := "Private" }

/-- The analyst's own event at the reference IP. -/
def evRef : Event :=
  { Timestamp := some ⟨9, 0, 0, 2⟩, Operation := "FileAccessed",
    UserId := "frans", ClientIP := "192.168.1.160",
    ResultStatus := "Succeeded", FileName := "report.xlsx", Country := "US",
    Region := "Massachusetts", City := "Boston" }

/-- A deletion event from a foreign address. -/
def evRU : Event :=
  { Timestamp := some ⟨3, 0, 0, 2⟩, Operation := "SoftDelete",
    UserId := "frans", ClientIP := "203.0.113.5", Country := "RU",
    Region := "Moscow", City := "Moscow" }

/-- An event whose `Timestamp` does not parse as a date-time. -/
def evNoTs : Event :=
  { Operation := "UserLogin", UserId := "bob", ClientIP := "8.8.8.8",
    Country := "US", Region := "California" }

/-! ## C1: risk scoring -/

/-- C1: the claim says an event with Country `Local` receives a geography
contribution of 0, as the spec and the code's own comment state.  The code
scores it +2: `Local` is not in the medium-risk exclusion list, so the
second `elif` fires and the `country == 'Local'` branch is unreachable.  At
an otherwise risk-free event the code returns `Medium` where the claimed
scoring returns `Low`. -/
theorem assign_risk_level_local_divergence :
    assign_risk_level localEvent = "Medium"
      ∧ risk_level_spec localEvent = "Low" := by
  constructor <;> rfl

/-! ## C3: the anomalous-IP baseline -/

/-- C3: `is_ip_anomalous` is `false` for the reference IP whatever the geo
fields hold; for any other IP it is `true` exactly when the country is not
`US` or the region is not `Massachusetts`. -/
theorem is_ip_anomalous_baseline (e : Event) :
    (e.ClientIP = "192.168.1.160" → is_ip_anomalous e = false)
  ∧ (e.ClientIP ≠ "192.168.1.160" →
      (is_ip_anomalous e = true ↔
        (e.Country ≠ "US" ∨ e.Region ≠ "Massachusetts"))) := by
  constructor
  · intro h
    simp [is_ip_anomalous, h]
  · intro h
    by_cases hc : e.Country ≠ "US" ∨ e.Region ≠ "Massachusetts" <;>
      simp [is_ip_anomalous, h, hc]

/-- C3 spot check: the reference IP is clean even at US/Massachusetts geo,
and a foreign event is anomalous. -/
theorem is_ip_anomalous_baseline_spot :
    is_ip_anomalous evRef = false ∧ is_ip_anomalous evRU = true :=
  ⟨(is_ip_anomalous_baseline evRef).1 rfl,
    ((is_ip_anomalous_baseline evRU).2 (by decide)).mpr (Or.inl (by decide))⟩

/-! ## C4: compromise detection -/

/-- C4: `detect_compromised_events` returns exactly the events whose
operation is a deletion or whose user shows more than 3 distinct client
IPs, and whose IP is anomalous; a user at exactly 4 distinct IPs is always
suspicious, and a user within 3 distinct IPs with no deletion is never
flagged. -/
theorem detect_compromised_characterization (tl : List Event) :
    detect_compromised_events tl
      = tl.filter (fun e =>
          decide ((e.Operation = "SoftDelete"
                ∨ e.Operation = "MoveToDeletedItems")
              ∨ (userIPs tl e.UserId).length > 3)
            && is_ip_anomalous e)
  ∧ (∀ e, e ∈ tl → (userIPs tl e.UserId).length = 4 →
      suspiciousActivity tl e = true)
  ∧ (∀ e, e ∈ tl → (userIPs tl e.UserId).length ≤ 3 →
      e.Operation ≠ "SoftDelete" → e.Operation ≠ "MoveToDeletedItems" →
      e ∉ detect_compromised_events tl) := by
  refine ⟨?_, ?_, ?_⟩
  · unfold detect_compromised_events
    refine List.filter_congr ?_
    intro e _
    have hs : suspiciousActivity tl e
        = decide ((e.Operation = "SoftDelete"
              ∨ e.Operation = "MoveToDeletedItems")
            ∨ (userIPs tl e.UserId).length > 3) := by
      rw [Bool.eq_iff_iff]
      simp [suspiciousActivity, List.mem_cons]
    rw [hs]
  · intro e _ h4
    simp [suspiciousActivity, h4]
  · intro e _ hle h1 h2 hmem
    simp [detect_compromised_events, List.mem_filter, suspiciousActivity,
      h1, h2] at hmem
    omega

/-- C4 spot check: a clean single-IP user with no deletion is not flagged. -/
theorem detect_compromised_spot : evRef ∉ detect_compromised_events [evRef] :=
  (detect_compromised_characterization [evRef]).2.2 evRef (by decide)
    (by decide) (by decide) (by decide)

/-! ## C5: the private-address short circuit -/

/-- The string denotes an IPv4 address in `10.0.0.0/8`. -/
def inTenSlash8 (ip : String) : Bool :=
  match pythonParseIP ip with
  | some (.v4 n) => n / 16777216 == 10
  | _ => false

/-- The string denotes an IPv4 address in `172.16.0.0/12`. -/
def inSeventyTwoSlash12 (ip : String) : Bool :=
  match pythonParseIP ip with
  | some (.v4 n) => n / 1048576 == 2753
  | _ => false

/-- The string denotes an IPv4 address in `192.168.0.0/16`. -/
def inNinetyTwoSlash16 (ip : String) : Bool :=
  match pythonParseIP ip with
  | some (.v4 n) => n / 65536 == 49320
  | _ => false

/-- The three RFC1918 blocks, `N/A` and parse failures all land in
`is_private_ip`. -/
theorem is_private_of_ranges (ip : String)
    (h : inTenSlash8 ip = true ∨ inSeventyTwoSlash12 ip = true
      ∨ inNinetyTwoSlash16 ip = true ∨ ip = "N/A"
      ∨ pythonParseIP ip = none) :
    is_private_ip ip = true := by
  unfold is_private_ip
  by_cases hna : ip = "N/A"
  · simp [hna]
  · rw [if_neg hna]
    rcases h with h | h | h | h | h
    · unfold inTenSlash8 at h
      cases hp : pythonParseIP ip with
      | none => rfl
      | some a =>
        rw [hp] at h
        cases a with
        | v4 n =>
          simp only [beq_iff_eq] at h
          simp [pyIsPrivate]
          tauto
        | v6 n => simp at h
    · unfold inSeventyTwoSlash12 at h
      cases hp : pythonParseIP ip with
      | none => rfl
      | some a =>
        rw [hp] at h
        cases a with
        | v4 n =>
          simp only [beq_iff_eq] at h
          simp [pyIsPrivate]
          tauto
        | v6 n => simp at h
    · unfold inNinetyTwoSlash16 at h
      cases hp : pythonParseIP ip with
      | none => rfl
      | some a =>
        rw [hp] at h
        cases a with
        | v4 n =>
          simp only [beq_iff_eq] at h
          simp [pyIsPrivate]
          tauto
        | v6 n => simp at h
    · exact absurd h hna
    · rw [h]

/-- C5: for any reader, an IP in `10.0.0.0/8`, `172.16.0.0/12` or
`192.168.0.0/16`, the `N/A` sentinel, or a string that fails address
parsing resolves to the Local/Network/Private record with the external
source never consulted — except the reference IP, which resolves to its
static record, also without consulting the reader. -/
theorem get_ip_geolocation_private_short_circuit :
    (∀ (ip : String) (geoReader : Option (String → Option GeoResp)),
      ip ≠ "192.168.1.160" →
      (inTenSlash8 ip = true ∨ inSeventyTwoSlash12 ip = true
        ∨ inNinetyTwoSlash16 ip = true ∨ ip = "N/A"
        ∨ pythonParseIP ip = none) →
      get_ip_geolocation ip geoReader = (localRecord, false))
  ∧ ∀ geoReader,
      get_ip_geolocation "192.168.1.160" geoReader = (fransRecord, false) := by
  constructor
  · intro ip reader hne h
    have hpriv := is_private_of_ranges ip h
    have hlk : List.lookup ip KNOWN_IPS = none := by
      have hbe : (ip == "192.168.1.160") = false := by
        simpa using hne
      simp [KNOWN_IPS, List.lookup, hbe]
    unfold get_ip_geolocation
    rw [hlk]
    simp [hpriv]
  · intro reader
    rfl

/-- C5 spot check: a `10.0.0.0/8` address short-circuits even with a
reader present. -/
theorem get_ip_geolocation_private_spot :
    get_ip_geolocation "10.0.0.5" (some (fun _ => none))
      = (localRecord, false) :=
  get_ip_geolocation_private_short_circuit.1 "10.0.0.5"
    (some (fun _ => none)) (by decide) (Or.inl (by decide))

/-! ## C6: row-level resilience of `processor.parse_audit_logs` -/

/-- When every row's blob is a string that either decodes to an object or
raises `JSONDecodeError`, the loop succeeds, keeps one event per good row
in order, and counts exactly the bad rows. -/
theorem processorLoop_counts (jl : String → Except JErr JVal)
    (rd : String → Option GeoResp) (rows : List PRow)
    (hAll : ∀ r ∈ rows, rowGood jl r = true ∨ rowBad jl r = true) :
    ∃ tl, processorLoop jl rd rows
        = .ok (tl, (rows.filter (rowBad jl)).length)
      ∧ tl.length = (rows.filter (rowGood jl)).length := by
  induction rows with
  | nil => exact ⟨[], rfl, rfl⟩
  | cons r rest ih =>
    have hr := hAll r (List.mem_cons_self r rest)
    obtain ⟨tl, hloop, hlen⟩ :=
      ih (fun x hx => hAll x (List.mem_cons_of_mem r hx))
    cases hb : r.AuditData with
    | nonStr => simp [rowGood, rowBad, hb] at hr
    | str s =>
      cases hjl : jl s with
      | error er =>
        have hbad : rowBad jl r = true := by simp [rowBad, hb, hjl]
        have hgood : rowGood jl r = false := by simp [rowGood, hb, hjl]
        refine ⟨tl, ?_, ?_⟩
        · have h1 : List.filter (rowBad jl) (r :: rest)
              = r :: List.filter (rowBad jl) rest := by
            simp [List.filter_cons, hbad]
          rw [h1, List.length_cons]
          simp only [processorLoop, hb, hjl, hloop]
        · have h2 : List.filter (rowGood jl) (r :: rest)
              = List.filter (rowGood jl) rest := by
            simp [List.filter_cons, hgood]
          rw [h2, hlen]
      | ok v =>
        cases v with
        | nonObj => simp [rowGood, rowBad, hb, hjl] at hr
        | obj d =>
          have hbad : rowBad jl r = false := by simp [rowBad, hb, hjl]
          have hgood : rowGood jl r = true := by simp [rowGood, hb, hjl]
          refine ⟨buildPEvent rd r d :: tl, ?_, ?_⟩
          · have h1 : List.filter (rowBad jl) (r :: rest)
                = List.filter (rowBad jl) rest := by
              simp [List.filter_cons, hbad]
            rw [h1]
            simp only [processorLoop, hb, hjl, hloop]
          · have h2 : List.filter (rowGood jl) (r :: rest)
                = r :: List.filter (rowGood jl) rest := by
              simp [List.filter_cons, hgood]
            rw [h2, List.length_cons, List.length_cons, hlen]

/-- C6 (amended): a batch whose blobs are all strings, with exactly one row
raising `JSONDecodeError` and N ≥ 1 rows decoding to objects, yields exactly
N events and a surfaced error count of 1. -/
theorem processor_parse_skips_and_counts (jl : String → Except JErr JVal)
    (rd : String → Option GeoResp) (rows : List PRow) (N : Nat)
    (hAll : ∀ r ∈ rows, rowGood jl r = true ∨ rowBad jl r = true)
    (hBad : (rows.filter (rowBad jl)).length = 1)
    (hGood : (rows.filter (rowGood jl)).length = N)
    (hN : 1 ≤ N) :
    ∃ tl, processor_parse jl rd rows = .ok tl (some 1) ∧ tl.length = N := by
  obtain ⟨tl, hloop, hlen⟩ := processorLoop_counts jl rd rows hAll
  rw [hBad] at hloop
  have htl : tl ≠ [] := by
    intro h0
    rw [h0] at hlen
    rw [hGood] at hlen
    simp at hlen
    omega
  refine ⟨tl, ?_, by rw [hlen, hGood]⟩
  have hstep : processor_parse jl rd rows
      = if tl = [] then
          PResult.fatal "No valid data could be parsed from the file"
        else PResult.ok tl (if 1 > 0 then some 1 else none) := by
    unfold processor_parse
    rw [hloop]
  rw [hstep, if_neg htl]
  rfl

/-- A concrete stand-in for `json.loads`: one recognized good blob, all
others raising `JSONDecodeError`. -/
def cJsonLoads : String → Except JErr JVal := fun s =>
  if s = "goodjson" then
    .ok (.obj [("ClientIP", "203.0.113.5"), ("ResultStatus", "Succeeded")])
  else .error .decodeError

/-- A reader whose every lookup raises. -/
def cReader : String → Option GeoResp := fun _ => none

/-- A row with a well-formed blob. -/
def cGoodRow : PRow :=
  { CreationDate := ⟨9, 0, 0, 0⟩, Operation := "FileAccessed",
    UserId := "alice", AuditData := .str "goodjson" }

/-- A row whose string blob fails JSON decoding. -/
def cBadJsonRow : PRow :=
  { CreationDate := ⟨10, 0, 0, 0⟩, Operation := "SoftDelete",
    UserId := "alice", AuditData := .str "badjson" }

/-- A row whose blob is not a string (e.g. `NaN` from an empty cell). -/
def cNonStrRow : PRow :=
  { CreationDate := ⟨11, 0, 0, 0⟩, Operation := "SoftDelete",
    UserId := "alice", AuditData := .nonStr }

/-- C6 spot check: 1 good row and 1 undecodable string row give 1 event and
a surfaced count of 1. -/
theorem processor_parse_skips_and_counts_spot :
    ∃ tl, processor_parse cJsonLoads cReader [cGoodRow, cBadJsonRow]
        = .ok tl (some 1) ∧ tl.length = 1 :=
  processor_parse_skips_and_counts cJsonLoads cReader [cGoodRow, cBadJsonRow]
    1 (by decide) (by decide) (by decide) (by decide)

/-- C6 counterexample: a blob of unexpected (non-string) type is not
skipped and counted — `json.loads` raises `TypeError`, which the loop's
`except json.JSONDecodeError` does not catch, so the whole batch aborts
with the outer error return (here: one valid row alongside one non-string
blob yields a fatal error, not 1 event with an error count of 1). -/
theorem processor_parse_nonstr_aborts :
    processor_parse cJsonLoads cReader [cGoodRow, cNonStrRow]
      = .fatal "Error processing file: TypeError" := by
  rfl

/-! ## C7: the empty filter configuration -/

/-- C7: with no option set, `apply_filters` returns the input events in
order, each annotated with `RiskLevel` and `AnomalyTypes`, with every other
field untouched and nothing removed or added. -/
theorem apply_filters_empty_config (events : List Event) (h : events ≠ []) :
    apply_filters events {} = events.map annotate
  ∧ ∀ e : Event,
      (annotate e).Timestamp = e.Timestamp
      ∧ (annotate e).Operation = e.Operation
      ∧ (annotate e).UserId = e.UserId
      ∧ (annotate e).ClientIP = e.ClientIP
      ∧ (annotate e).ResultStatus = e.ResultStatus
      ∧ (annotate e).FileName = e.FileName
      ∧ (annotate e).Country = e.Country
      ∧ (annotate e).Region = e.Region
      ∧ (annotate e).City = e.City
      ∧ (annotate e).RiskLevel = some (assign_risk_level e)
      ∧ (annotate e).AnomalyTypes = some (classify_anomaly_type e) := by
  constructor
  · unfold apply_filters
    rw [if_neg h]
    rfl
  · intro e
    exact ⟨rfl, rfl, rfl, rfl, rfl, rfl, rfl, rfl, rfl, rfl, rfl⟩

/-- C7 spot check. -/
theorem apply_filters_empty_config_spot :
    apply_filters [evRU] {} = [annotate evRU] :=
  (apply_filters_empty_config [evRU] (by decide)).1

/-! ## C8: the IP-pattern stage -/

/-- The option loop holds for an event exactly when one of the selected
patterns does, with both single-occurrence options meaning count = 1. -/
theorem ipOptionHolds_iff (evs : List Event) (opts : List String) (e : Event) :
    ipOptionHolds evs opts e = true ↔
      ((("First-time IPs" ∈ opts ∨ "Single-use IPs" ∈ opts)
          ∧ countIP evs e.ClientIP = 1)
        ∨ ("Frequent IPs" ∈ opts ∧ countIP evs e.ClientIP > 10)
        ∨ ("Cross-country IPs" ∈ opts
            ∧ (ipCountries evs e.ClientIP).length > 1)) := by
  unfold ipOptionHolds
  rw [List.any_eq_true]
  constructor
  · rintro ⟨o, ho, hfo⟩
    unfold ipOptionHolds1 at hfo
    split_ifs at hfo with h1 h2 h3 h4
    · subst h1
      exact Or.inl ⟨Or.inl ho, by simpa using hfo⟩
    · subst h2
      exact Or.inr (Or.inl ⟨ho, by simpa using hfo⟩)
    · subst h3
      exact Or.inl ⟨Or.inr ho, by simpa using hfo⟩
    · subst h4
      exact Or.inr (Or.inr ⟨ho, by simpa using hfo⟩)
  · rintro (⟨ho | ho, hc⟩ | ⟨ho, hc⟩ | ⟨ho, hc⟩)
    · exact ⟨"First-time IPs", ho, by simp [ipOptionHolds1, hc]⟩
    · exact ⟨"Single-use IPs", ho, by simp [ipOptionHolds1, hc]⟩
    · exact ⟨"Frequent IPs", ho, by simp [ipOptionHolds1, hc]⟩
    · exact ⟨"Cross-country IPs", ho, by simp [ipOptionHolds1, hc]⟩

/-- C8: with IP options selected, `apply_filters` runs the IP-pattern stage
last, over the list surviving the risk, anomaly, country and time stages;
and that stage keeps exactly the events for which a selected option holds
(First-time and Single-use both meaning the IP occurs once in the current
list, Frequent meaning more than 10 times, Cross-country meaning more than
one distinct country for the IP in the current list). -/
theorem ip_pattern_stage (events evs : List Event) (cfg : FilterConfig)
    (e : Event) (hip : cfg.ip_filter_options ≠ []) :
    (events ≠ [] →
      apply_filters events cfg
        = apply_ip_pattern_filter
            (timeStage cfg (countryStage cfg (anomalyStage cfg
              (riskStage cfg (events.map annotate))))) cfg)
  ∧ (e ∈ apply_ip_pattern_filter evs cfg ↔
      e ∈ evs ∧
        ((("First-time IPs" ∈ cfg.ip_filter_options
            ∨ "Single-use IPs" ∈ cfg.ip_filter_options)
            ∧ countIP evs e.ClientIP = 1)
          ∨ ("Frequent IPs" ∈ cfg.ip_filter_options
              ∧ countIP evs e.ClientIP > 10)
          ∨ ("Cross-country IPs" ∈ cfg.ip_filter_options
              ∧ (ipCountries evs e.ClientIP).length > 1))) := by
  constructor
  · intro h
    unfold apply_filters ipStage
    rw [if_neg h, if_pos hip]
  · unfold apply_ip_pattern_filter
    rw [if_neg hip]
    simp only [List.mem_filter, Bool.or_eq_true]
    constructor
    · rintro ⟨hm, hp | hp⟩
      · exact ⟨hm, (ipOptionHolds_iff evs cfg.ip_filter_options e).mp hp⟩
      · simp at hp
        exact absurd hp hip
    · rintro ⟨hm, hp⟩
      exact ⟨hm,
        Or.inl ((ipOptionHolds_iff evs cfg.ip_filter_options e).mpr hp)⟩

/-- A configuration selecting only the First-time-IPs pattern. -/
def cfgFT : FilterConfig := { ip_filter_options := ["First-time IPs"] }

/-- C8 spot check: a once-occurring IP passes the First-time-IPs stage. -/
theorem ip_pattern_stage_spot : evRU ∈ apply_ip_pattern_filter [evRU] cfgFT :=
  ((ip_pattern_stage [evRU] [evRU] cfgFT evRU (by decide)).2).mpr
    ⟨by decide, Or.inl ⟨Or.inl (by decide), by decide⟩⟩

/-! ## C9: the time filter is fail-open -/

/-- C9: under any time-filter configuration, an event whose timestamp does
not parse is retained by `apply_time_filter`. -/
theorem time_filter_fail_open (events : List Event) (cfg : FilterConfig)
    (e : Event) (hin : e ∈ events) (hts : e.Timestamp = none) :
    e ∈ apply_time_filter events cfg := by
  unfold apply_time_filter
  cases htf : cfg.time_filter_type with
  | none => exact hin
  | some tf => exact List.mem_filter.mpr ⟨hin, by simp [timeKeep, hts]⟩

/-- A Weekends-Only configuration. -/
def cfgWeekends : FilterConfig := { time_filter_type := some "Weekends Only" }

/-- C9 spot check. -/
theorem time_filter_fail_open_spot :
    evNoTs ∈ apply_time_filter [evNoTs] cfgWeekends :=
  time_filter_fail_open [evNoTs] cfgWeekends evNoTs (by decide) rfl

/-! ## C10: Custom Range with a missing bound -/

/-- C10: with `time_filter_type` Custom Range but a missing start or end
time, `apply_time_filter` keeps exactly the events whose timestamps fail to
parse — every successfully parsed event is dropped. -/
theorem custom_range_missing_bounds (events : List Event) (cfg : FilterConfig)
    (htf : cfg.time_filter_type = some "Custom Range")
    (hmiss : cfg.start_time = none ∨ cfg.end_time = none) :
    apply_time_filter events cfg
      = events.filter (fun e => e.Timestamp.isNone) := by
  unfold apply_time_filter
  rw [htf]
  refine List.filter_congr ?_
  intro e _
  cases hts : e.Timestamp with
  | none => simp [timeKeep, hts]
  | some dt =>
    rcases hmiss with hm | hm <;> simp [timeKeep, hts, hm]

/-- A Custom Range configuration missing its start time. -/
def cfgCustomMissing : FilterConfig :=
  { time_filter_type := some "Custom Range", end_time := some ⟨17, 0, 0⟩ }

/-- C10 spot check: the parseable event is dropped, the unparseable one is
kept. -/
theorem custom_range_missing_bounds_spot :
    apply_time_filter [evRU, evNoTs] cfgCustomMissing = [evNoTs] := by
  rw [custom_range_missing_bounds [evRU, evNoTs] cfgCustomMissing rfl
    (Or.inl rfl)]
  rfl
